import Mathlib

/-!
Verification of the Evaluation Conversation Engine of the AIHTML-Evaluator
frontend (src/frontend/src/App.jsx, with the legacy iterations in
src/unnamed/part_003 and src/unnamed/part_004).

The React component is embedded shallowly: the conversation history, the
"latest analysis" slot, the busy flag and the active tab become an explicit
state record, and each handler becomes a pure state-transition function.
Handlers that await a network call are split into a synchronous start
function (everything executed before `await callApi(...)`, returning the new
state together with the transcript dispatched, if any) and a finish function
(the `then`/`catch`/`finally` continuation, parameterised by the call's
outcome).
-/

namespace AIHtml

/-- Conversation roles. App.jsx only ever creates `user`/`assistant` turns;
`system` is the frontend-only greeting role used by the legacy chat UI
(src/unnamed/part_003), which the spec calls `system-notice`. -/
inductive Role where
  | user
  | assistant
  | system
deriving DecidableEq, Repr

/-- The structured payload of a successful evaluation call, as the frontend
consumes it. Being a duck-typed JSON object, every field may be absent, so
each is an `Option`. -/
structure EvalResult where
  score_fidelity : Option Int
  score_syntax : Option Int
  score_accessibility : Option Int
  score_responsiveness : Option Int
  score_visual : Option Int
  rationale : Option String
  final_judgement : Option String
  fixed_html : Option String
  execution_trace : Option (List String)
deriving DecidableEq, Repr

/-- An `EvalResult` with every field absent; concrete examples are built from
it by overriding single fields. -/
def emptyResult : EvalResult :=
  ⟨none, none, none, none, none, none, none, none, none⟩

/-- Structured assistant content: either a decoded evaluation result or the
error object `\x7b error: message \x7d` that the catch branches append. -/
inductive AContent where
  | res (r : EvalResult)
  | err (msg : String)
deriving DecidableEq, Repr

/-- Content of one history entry: user turns hold plain text, assistant turns
hold a structured object. -/
inductive Content where
  | str (s : String)
  | obj (a : AContent)
deriving DecidableEq, Repr

/-- One entry of `chatHistory`. -/
structure Turn where
  role : Role
  content : Content
deriving DecidableEq, Repr

/-- JavaScript truthiness test for `msg.content.fixed_html`-style accesses:
the field is truthy exactly when it is present and a non-empty string. -/
def truthyStr : Option String → Bool
  | some s => !s.isEmpty
  | none => false

/-- `msg.content.fixed_html`: defined only on structured result content. -/
def fixedHtmlOf : Content → Option String
  | Content.obj (AContent.res r) => r.fixed_html
  | _ => none

/-- `msg.content.rationale`: defined only on structured result content. -/
def rationaleOf : Content → Option String
  | Content.obj (AContent.res r) => r.rationale
  | _ => none

/-! ### The fenced-block regex

App.jsx line 42 runs `rationale.match(/```html([\s\S]*?)```/)` and returns
the first capture group. We model the regex engine's semantics directly:
the match starts at the leftmost position where the literal opener
```` ```html ```` is followed (lazily, i.e. at the nearest position) by the
literal closer ```` ``` ````; the capture is everything strictly between
the opener and that closer, newlines included. -/

/-- The literal opening delimiter `` ```html `` of the regex. -/
def openFence : List Char := "```html".toList

/-- The literal closing delimiter `` ``` `` of the regex. -/
def closeFence : List Char := "```".toList

/-- Scan for the closing fence; return the characters before it, or `none`
when no closing fence follows (the lazy `[\s\S]*?` then fails from this
start position). -/
def captureBody : List Char → Option (List Char)
  | [] => none
  | c :: cs =>
    if List.isPrefixOf closeFence (c :: cs) then some []
    else (captureBody cs).map (fun k => c :: k)

/-- Leftmost-match search for the opening fence with a successful capture;
mirrors the regex engine retrying later start positions when a candidate
opener has no closer after it. -/
def fenceCapture : List Char → Option (List Char)
  | [] => none
  | c :: cs =>
    if List.isPrefixOf openFence (c :: cs) then
      match captureBody (List.drop openFence.length (c :: cs)) with
      | some k => some k
      | none => fenceCapture cs
    else fenceCapture cs

/-- `rationale.match(/```html([\s\S]*?)```/)?.[1]` as a string function. -/
def fenceMatch (s : String) : Option String :=
  (fenceCapture s.toList).map String.mk

/-- Pass 1 of `getPreviewCode` applied to one turn (App.jsx lines 31-36):
an assistant turn with a truthy `fixed_html` yields it. -/
def pass1Check (t : Turn) : Option String :=
  if t.role = Role.assistant then
    match fixedHtmlOf t.content with
    | some s => if s.isEmpty then none else some s
    | none => none
  else none

/-- Pass 2 of `getPreviewCode` applied to one turn (App.jsx lines 39-45):
an assistant turn with a truthy `rationale` whose fence regex matches yields
the capture; a rationale without a match is skipped, not terminal. -/
def pass2Check (t : Turn) : Option String :=
  if t.role = Role.assistant then
    match rationaleOf t.content with
    | some rat => if rat.isEmpty then none else fenceMatch rat
    | none => none
  else none

/-- `getPreviewCode` (App.jsx lines 29-49): first a whole-history scan,
newest turn first, for an explicit `fixed_html`; only when that scan fails,
a second whole-history scan for a fenced `html` block inside a rationale;
otherwise the editor document. Identical code appears in
src/unnamed/part_004 lines 129-149. -/
def getPreviewCode (chatHistory : List Turn) (htmlInput : String) : String :=
  match chatHistory.reverse.findSome? pass1Check with
  | some s => s
  | none =>
    match chatHistory.reverse.findSome? pass2Check with
    | some s => s
    | none => htmlInput

/-! ### Score surfaces -/

/-- `getScoreColor` (App.jsx lines 18-26): tier classification with the
80/70 breakpoints of the current UI. -/
def getScoreColor (score : Int) : String :=
  if score ≥ 80 then "text-high"
  else if score ≥ 70 then "text-mid"
  else "text-low"

/-- `getScoreColor` of src/unnamed/part_003 and part_004: the legacy 80/60
breakpoints. -/
def getScoreColorLegacy (score : Int) : String :=
  if score ≥ 80 then "score-high"
  else if score ≥ 60 then "score-mid"
  else "score-low"

/-- JavaScript `x || d` on a number-or-undefined value: `undefined` and `0`
are both falsy, so both fall to the default. -/
def jsOrInt (x : Option Int) (d : Int) : Int :=
  match x with
  | some v => if v = 0 then d else v
  | none => d

/-- JavaScript `x || 'N/A'` rendering of an optional score (App.jsx lines
258 and 262, chat row line 310): `undefined` and `0` both render the
fallback text. -/
def jsOrNA : Option Int → String
  | some v => if v = 0 then "N/A" else toString v
  | none => "N/A"

/-- The class computed for an optional score card,
`getScoreColor(latestAnalysis.score_responsiveness || 0)`
(App.jsx lines 258 and 262). -/
def optScoreClass (o : Option Int) : String :=
  getScoreColor (jsOrInt o 0)

/-- The text shown on an optional score card,
`latestAnalysis.score_responsiveness || 'N/A'`
(App.jsx lines 258 and 262). -/
def optScoreDisplay (o : Option Int) : String :=
  jsOrNA o

/-! ### Wire format -/

/-- One element of the `messages` array posted to `/evaluate`. -/
structure WireMsg where
  role : Role
  content : String
deriving DecidableEq, Repr

/-- Escape for the JSON string encoder (backslash, quote, newline). -/
def jsonEscape (s : String) : String :=
  String.mk (s.toList.flatMap fun c =>
    if c = '\\' then ['\\', '\\']
    else if c = '"' then ['\\', '"']
    else if c = '\n' then ['\\', 'n']
    else [c])

/-- A JSON string literal. -/
def jsonStr (s : String) : String := "\"" ++ jsonEscape s ++ "\""

/-- One `"key":value` member. -/
def jsonMember (k v : String) : String := jsonStr k ++ ":" ++ v

/-- Model of `JSON.stringify` on structured assistant content: present
fields are emitted in declaration order, absent fields are omitted
(`JSON.stringify` drops `undefined` members). -/
def jsonStringifyA : AContent → String
  | AContent.err m => "\x7b" ++ jsonMember "error" (jsonStr m) ++ "\x7d"
  | AContent.res r =>
    let fields : List (Option (String × String)) :=
      [r.score_fidelity.map (fun v => ("score_fidelity", toString v)),
       r.score_syntax.map (fun v => ("score_syntax", toString v)),
       r.score_accessibility.map (fun v => ("score_accessibility", toString v)),
       r.score_responsiveness.map (fun v => ("score_responsiveness", toString v)),
       r.score_visual.map (fun v => ("score_visual", toString v)),
       r.rationale.map (fun v => ("rationale", jsonStr v)),
       r.final_judgement.map (fun v => ("final_judgement", jsonStr v)),
       r.fixed_html.map (fun v => ("fixed_html", jsonStr v)),
       r.execution_trace.map (fun v =>
         ("execution_trace",
          "[" ++ String.intercalate "," (v.map jsonStr) ++ "]"))]
    "\x7b" ++
      String.intercalate "," ((fields.filterMap id).map (fun p => jsonMember p.1 p.2)) ++
    "\x7d"

/-- The per-message coercion of `callApi` (App.jsx lines 63-66):
`typeof m.content === 'string' ? m.content : JSON.stringify(m.content)`. -/
def serializeContent : Content → String
  | Content.str s => s
  | Content.obj a => jsonStringifyA a

/-- The `apiMessages` array built by App.jsx `callApi` (lines 63-66): every
history entry is mapped; nothing is filtered. -/
def toWireApp (h : List Turn) : List WireMsg :=
  h.map (fun m => ⟨m.role, serializeContent m.content⟩)

/-- The `apiMessages` array built by the legacy chat UI's `handleSend`
(src/unnamed/part_003 lines 38-43): the frontend-only `system` greeting is
filtered out, then the same coercion is applied. -/
def toWire003 (h : List Turn) : List WireMsg :=
  (h.filter (fun m => !(m.role == Role.system))).map
    (fun m => ⟨m.role, serializeContent m.content⟩)

/-! ### Evaluation client failure derivation -/

/-- The JSON shape `\x7b detail: ... \x7d` of a structured failure body. -/
structure ErrBody where
  detail : Option String
deriving DecidableEq, Repr

/-- An HTTP response as the client observes it: success flag, the body
decoded as an `EvalResult` when it decodes, the body parsed as a JSON error
object when it parses, and the raw body text. -/
structure HttpResponse where
  ok : Bool
  evalBody : Option EvalResult
  jsonBody : Option ErrBody
  textBody : String
deriving DecidableEq, Repr

/-- Failure-message derivation of App.jsx `callApi` (lines 74-77):
`response.json().catch(() => (\x7b detail: 'Request failed' \x7d))` followed by
`err.detail || 'Request failed'` — a JSON `detail` field when the body
parses and the field is truthy, otherwise the generic message. The raw body
text is never consulted. -/
def deriveError (resp : HttpResponse) : String :=
  match resp.jsonBody with
  | some b =>
    match b.detail with
    | some d => if d.isEmpty then "Request failed" else d
    | none => "Request failed"
  | none => "Request failed"

/-- Failure-message derivation of the legacy `callApi`
(src/unnamed/part_004 lines 97-110): JSON `detail` field, else the raw
response text, else the generic message. -/
def deriveErrorLegacy (resp : HttpResponse) : String :=
  match resp.jsonBody with
  | some b =>
    match b.detail with
    | some d => if d.isEmpty then "Request failed" else d
    | none => "Request failed"
  | none => if resp.textBody.isEmpty then "Request failed" else resp.textBody

/-- `callApi` (App.jsx lines 60-79) as a function of the observed response:
a non-ok response always becomes a thrown `Error` carrying the derived
message (`Except.error`), caught by the calling handler; an ok response
yields the decoded result. (An ok body that fails to decode throws a parse
error, modelled here by surfacing the raw text; no claim depends on that
branch.) -/
def callApi (resp : HttpResponse) : Except String EvalResult :=
  if resp.ok then
    match resp.evalBody with
    | some r => Except.ok r
    | none => Except.error resp.textBody
  else Except.error (deriveError resp)

/-! ### Conversation controller -/

/-- The tabs of the hybrid UI. -/
inductive Tab where
  | logs
  | analysis
  | chat
  | preview
deriving DecidableEq, Repr

/-- The component state of App.jsx (lines 7-14). -/
structure AppState where
  activeTab : Tab
  htmlInput : String
  chatHistory : List Turn
  latestAnalysis : Option AContent
  loading : Bool
  chatInput : String
  showJson : Bool
deriving DecidableEq, Repr

/-- JavaScript `!s.trim()`: true exactly when the string is all whitespace. -/
def isBlank (s : String) : Bool :=
  s.toList.all Char.isWhitespace

/-- The editor template initially loaded (App.jsx line 8). -/
def defaultTemplate : String :=
  "<div class=\"card\">\n  <h2>Hello World</h2>\n  <button>Click Me</button>\n</div>"

/-- The initial component state (App.jsx lines 7-13): tab `logs`, template
in the editor, empty history, no analysis, not loading. -/
def initState : AppState :=
  { activeTab := Tab.logs, htmlInput := defaultTemplate, chatHistory := [],
    latestAnalysis := none, loading := false, chatInput := "", showJson := false }

/-- The first message of a fresh evaluation (App.jsx line 91). -/
def evalPrompt (doc : String) : String := "Evaluate this HTML:\n" ++ doc

/-- Synchronous prefix of `handleEvaluate` (App.jsx lines 82-96): guarded
only by a non-blank editor document — the busy flag is not consulted,
re-entry is prevented solely by the view disabling the button. On passing
the guard: busy flag set, analysis cleared, tab forced to `logs`, JSON
overlay closed, history reset to the single fresh user turn, and that
history dispatched. -/
def evaluateStart (s : AppState) : AppState × Option (List Turn) :=
  if isBlank s.htmlInput then (s, none)
  else
    let newHistory : List Turn := [⟨Role.user, Content.str (evalPrompt s.htmlInput)⟩]
    ({ s with loading := true, latestAnalysis := none, activeTab := Tab.logs,
              showJson := false, chatHistory := newHistory },
     some newHistory)

/-- The continuation of `handleEvaluate` (App.jsx lines 95-105): on success
the analysis and history gain the result; on failure both gain the error
object; the busy flag always clears. -/
def evaluateFinish (s : AppState) (outcome : Except String EvalResult) : AppState :=
  match outcome with
  | Except.ok data =>
    { s with latestAnalysis := some (AContent.res data),
             chatHistory := s.chatHistory ++ [⟨Role.assistant, Content.obj (AContent.res data)⟩],
             loading := false }
  | Except.error m =>
    { s with latestAnalysis := some (AContent.err m),
             chatHistory := s.chatHistory ++ [⟨Role.assistant, Content.obj (AContent.err m)⟩],
             loading := false }

/-- Synchronous prefix of `handleChatSend` (App.jsx lines 109-117): a blank
input or a set busy flag makes the call a no-op; otherwise the user turn is
appended, the input cleared, the busy flag set, and the grown history
dispatched. -/
def chatStart (s : AppState) : AppState × Option (List Turn) :=
  if isBlank s.chatInput || s.loading then (s, none)
  else
    let newHistory := s.chatHistory ++ [⟨Role.user, Content.str s.chatInput⟩]
    ({ s with chatHistory := newHistory, chatInput := "", loading := true },
     some newHistory)

/-- The continuation of `handleChatSend` (App.jsx lines 118-132): on success
the history gains the result and the analysis is updated only when
`data.score_fidelity !== undefined`; on failure the history gains the error
object and the analysis is left untouched; the busy flag always clears. -/
def chatFinish (s : AppState) (outcome : Except String EvalResult) : AppState :=
  match outcome with
  | Except.ok data =>
    let s' := { s with
      chatHistory := s.chatHistory ++ [⟨Role.assistant, Content.obj (AContent.res data)⟩],
      loading := false }
    if data.score_fidelity.isSome then { s' with latestAnalysis := some (AContent.res data) }
    else s'
  | Except.error m =>
    { s with chatHistory := s.chatHistory ++ [⟨Role.assistant, Content.obj (AContent.err m)⟩],
             latestAnalysis := s.latestAnalysis,
             loading := false }

/-- `handleApplyFix` (App.jsx lines 136-139): a truthy argument replaces the
editor document. -/
def handleApplyFix (s : AppState) (fixedHtml : String) : AppState :=
  if fixedHtml.isEmpty then s else { s with htmlInput := fixedHtml }

/-- Synchronous prefix of the legacy `handleEvaluate`
(src/unnamed/part_004 lines 20-33): as `evaluateStart`, but the tab is
forced to `analysis` and there is no JSON overlay to close. -/
def evaluateStart004 (s : AppState) : AppState × Option (List Turn) :=
  if isBlank s.htmlInput then (s, none)
  else
    let newHistory : List Turn := [⟨Role.user, Content.str (evalPrompt s.htmlInput)⟩]
    ({ s with loading := true, latestAnalysis := none, activeTab := Tab.analysis,
              chatHistory := newHistory },
     some newHistory)

/-- The states of the App.jsx session reachable from the initial render by
the component's own event handlers (text edits, tab clicks, the two
submission handlers with either call outcome, and apply-fix). The finish
steps are over-approximated — they may fire from any reachable state — which
only widens the set. -/
inductive Reachable : AppState → Prop where
  | init : Reachable initState
  | editHtml (s : AppState) (v : String) :
      Reachable s → Reachable { s with htmlInput := v }
  | editChat (s : AppState) (v : String) :
      Reachable s → Reachable { s with chatInput := v }
  | setTab (s : AppState) (t : Tab) :
      Reachable s → Reachable { s with activeTab := t }
  | setJson (s : AppState) (b : Bool) :
      Reachable s → Reachable { s with showJson := b }
  | evalStart (s : AppState) :
      Reachable s → Reachable (evaluateStart s).1
  | evalFinish (s : AppState) (o : Except String EvalResult) :
      Reachable s → Reachable (evaluateFinish s o)
  | chatStartStep (s : AppState) :
      Reachable s → Reachable (chatStart s).1
  | chatFinishStep (s : AppState) (o : Except String EvalResult) :
      Reachable s → Reachable (chatFinish s o)
  | applyFix (s : AppState) (v : String) :
      Reachable s → Reachable (handleApplyFix s v)

/-! ### Concrete fixtures used by the counterexamples and witnesses -/

/-- An older assistant result carrying an explicit fix. -/
def resOldFix : EvalResult := { emptyResult with fixed_html := some "<b>old</b>" }

/-- A newer assistant result with no fix but a fenced `html` block in its
rationale. -/
def resNewFence : EvalResult :=
  { emptyResult with rationale := some "```html\n<p>new</p>\n```" }

/-- History whose newest assistant turn has only a fenced block while an
older one carries `fixed_html`. -/
def histNewestFence : List Turn :=
  [⟨Role.assistant, Content.obj (AContent.res resOldFix)⟩,
   ⟨Role.assistant, Content.obj (AContent.res resNewFence)⟩]

/-- The spec's own fenced-block example rationale. -/
def resHiFence : EvalResult :=
  { emptyResult with rationale := some "```html\n<p>hi</p>\n```" }

/-- History whose only assistant turn has no `fixed_html` and the
`<p>hi</p>` fenced rationale. -/
def histHiFence : List Turn :=
  [⟨Role.user, Content.str "Evaluate this HTML:\n<p>HI!</p>"⟩,
   ⟨Role.assistant, Content.obj (AContent.res resHiFence)⟩]

/-- A session with a request in flight and a non-blank editor document. -/
def busyEvalState : AppState :=
  { initState with
    loading := true, htmlInput := "<p>x</p>",
    chatHistory := [⟨Role.user, Content.str "old turn"⟩] }

/-- A session with a request in flight and a non-blank chat input. -/
def busyChatState : AppState :=
  { initState with loading := true, chatInput := "more please" }

/-- An idle session with prior history, a prior analysis, and non-blank
inputs on both surfaces. -/
def idleChatState : AppState :=
  { initState with
    htmlInput := "<p>a</p>", chatInput := "fix it",
    chatHistory := [⟨Role.user, Content.str "old turn"⟩],
    latestAnalysis := some (AContent.res emptyResult) }

/-- A failed response whose body is plain text, not JSON. -/
def badResp : HttpResponse := ⟨false, none, none, "boom"⟩

/-- A failed response with a structured JSON `detail`. -/
def detailResp : HttpResponse := ⟨false, none, some ⟨some "rate limited"⟩, "raw"⟩

end AIHtml

namespace AIHtml

/-! ## Theorems -/

/-- Helper: a turn whose content is the error object satisfies neither
extraction rule. -/
theorem pass1Check_err (m : String) :
    pass1Check ⟨Role.assistant, Content.obj (AContent.err m)⟩ = none := by
  simp [pass1Check, fixedHtmlOf]

/-- Helper: a failure turn carries no rationale either. -/
theorem pass2Check_err (m : String) :
    pass2Check ⟨Role.assistant, Content.obj (AContent.err m)⟩ = none := by
  simp [pass2Check, rationaleOf]

/-- C10: appending an assistant failure turn to any history leaves the
Reconciler's preview document unchanged — failure content carries neither
`fixed_html` nor `rationale`, so both scans skip it. -/
theorem failure_turn_preserves_preview (h : List Turn) (m E : String) :
    getPreviewCode (h ++ [⟨Role.assistant, Content.obj (AContent.err m)⟩]) E
      = getPreviewCode h E := by
  simp [getPreviewCode, List.reverse_append, List.findSome?_cons,
        pass1Check_err, pass2Check_err]

/-- C1 counterexample: with an older assistant turn carrying
`fixed_html = "<b>old</b>"` and the newest assistant turn carrying only a
fenced `html` block, `getPreviewCode` returns the older `fixed_html`, not
the newest turn's fenced-block interior. -/
theorem newest_fence_loses_cex :
    getPreviewCode histNewestFence "EDITOR" = "<b>old</b>" ∧
    getPreviewCode histNewestFence "EDITOR" ≠ "\n<p>new</p>\n" ∧
    getPreviewCode histNewestFence "EDITOR" ≠ "<p>new</p>" := by
  decide

/-- C1 (amended): rule 1 is applied across the WHOLE history (newest turn
first) before rule 2 is ever consulted: whenever an assistant turn carries a
non-empty `fixed_html` and no later turn does, that `fixed_html` is the
preview document, regardless of fenced blocks in any newer rationale. -/
theorem fixed_html_priority (h₁ h₂ : List Turn) (r : EvalResult) (s E : String)
    (hfix : r.fixed_html = some s) (hs : s.isEmpty = false)
    (hnewer : ∀ t ∈ h₂, pass1Check t = none) :
    getPreviewCode (h₁ ++ ⟨Role.assistant, Content.obj (AContent.res r)⟩ :: h₂) E = s := by
  have ht : pass1Check ⟨Role.assistant, Content.obj (AContent.res r)⟩ = some s := by
    simp [pass1Check, fixedHtmlOf, hfix, hs]
  have hnone : h₂.reverse.findSome? pass1Check = none := by
    rw [List.findSome?_eq_none_iff]
    intro x hx
    exact hnewer x (List.mem_reverse.mp hx)
  simp [getPreviewCode, List.reverse_append, List.reverse_cons,
        List.findSome?_append, List.findSome?_cons, hnone, ht]

/-- C1 witness: the priority theorem applied to the two-turn
counterexample history. -/
theorem fixed_html_priority_w :
    getPreviewCode
      ([] ++ ⟨Role.assistant, Content.obj (AContent.res resOldFix)⟩ ::
        [⟨Role.assistant, Content.obj (AContent.res resNewFence)⟩]) "E" = "<b>old</b>" := by
  exact fixed_html_priority [] [⟨Role.assistant, Content.obj (AContent.res resNewFence)⟩]
    resOldFix "<b>old</b>" "E" rfl (by decide) (by decide)

/-- C2 counterexample: `handleEvaluate` consults only the editor document,
not the busy flag — invoked while a request is in flight it still resets the
history and dispatches a second call. -/
theorem evaluate_not_guarded_cex :
    busyEvalState.loading = true ∧
    (evaluateStart busyEvalState).2 ≠ none ∧
    (evaluateStart busyEvalState).1.chatHistory ≠ busyEvalState.chatHistory := by
  decide

/-- C2 (amended): `handleChatSend` invoked while a request is in flight is a
no-op — state unchanged, nothing dispatched. `handleEvaluate` carries no
such guard at the controller level; only the view's disabled button prevents
re-entrant fresh evaluations. -/
theorem chat_reentrancy_guard (s : AppState) (hbusy : s.loading = true) :
    chatStart s = (s, none) := by
  simp [chatStart, hbusy]

/-- C2 witness: the guard theorem at a concrete busy state. -/
theorem chat_reentrancy_guard_w :
    busyChatState.loading = true ∧ chatStart busyChatState = (busyChatState, none) :=
  ⟨rfl, chat_reentrancy_guard busyChatState rfl⟩

/-- C3: a failed follow-up chat leaves the prior analysis unchanged while a
failed fresh evaluation sets the analysis to the failure; in both paths the
(possibly reset) history gains exactly the user turn plus one assistant
error turn, the busy flag clears, and a subsequent chat submission
dispatches again. -/
theorem failure_isolation (s : AppState) (m : String)
    (hidle : s.loading = false) (hchat : isBlank s.chatInput = false)
    (hdoc : isBlank s.htmlInput = false) :
    (chatFinish (chatStart s).1 (Except.error m)).latestAnalysis = s.latestAnalysis ∧
    (chatFinish (chatStart s).1 (Except.error m)).chatHistory
      = s.chatHistory ++ [⟨Role.user, Content.str s.chatInput⟩,
                          ⟨Role.assistant, Content.obj (AContent.err m)⟩] ∧
    (chatFinish (chatStart s).1 (Except.error m)).loading = false ∧
    (evaluateFinish (evaluateStart s).1 (Except.error m)).latestAnalysis
      = some (AContent.err m) ∧
    (evaluateFinish (evaluateStart s).1 (Except.error m)).chatHistory
      = [⟨Role.user, Content.str (evalPrompt s.htmlInput)⟩,
         ⟨Role.assistant, Content.obj (AContent.err m)⟩] ∧
    (evaluateFinish (evaluateStart s).1 (Except.error m)).loading = false ∧
    (chatStart { chatFinish (chatStart s).1 (Except.error m) with
                   chatInput := "again" }).2 ≠ none := by
  have hagain : isBlank "again" = false := by decide
  simp [chatStart, chatFinish, evaluateStart, evaluateFinish, hidle, hchat, hdoc, hagain]

/-- C3 witness: failure isolation at a concrete idle session. -/
theorem failure_isolation_w :
    idleChatState.loading = false ∧
    (chatFinish (chatStart idleChatState).1 (Except.error "boom")).latestAnalysis
      = idleChatState.latestAnalysis ∧
    (evaluateFinish (evaluateStart idleChatState).1 (Except.error "boom")).latestAnalysis
      = some (AContent.err "boom") :=
  ⟨rfl,
   (failure_isolation idleChatState "boom" rfl (by decide) (by decide)).1,
   (failure_isolation idleChatState "boom" rfl (by decide) (by decide)).2.2.2.1⟩

/-- C4 counterexample: the current client's fallback is two-tier — on a
non-JSON failure body the raw text `"boom"` is discarded and the generic
message is used instead, contrary to the claimed raw-text middle tier. -/
theorem raw_text_tier_missing_cex :
    badResp.textBody = "boom" ∧
    deriveError badResp = "Request failed" ∧
    deriveError badResp ≠ "boom" ∧
    deriveErrorLegacy badResp = "boom" := by
  decide

/-- C4 (amended): on a non-success response the current client (App.jsx)
derives the failure message by a two-tier fallback — the JSON body's truthy
`detail` field, else the generic `"Request failed"` — and the outcome is
always a thrown failure (`Except.error`), never an unhandled raise; the
raw-text middle tier exists only in the legacy client (part_004). -/
theorem client_failure_two_tier (resp : HttpResponse) (hok : resp.ok = false) :
    callApi resp = Except.error (deriveError resp) ∧
    (resp.jsonBody = none → deriveError resp = "Request failed") ∧
    (∀ b, resp.jsonBody = some b → b.detail = none → deriveError resp = "Request failed") ∧
    (∀ b d, resp.jsonBody = some b → b.detail = some d → d.isEmpty = false →
      deriveError resp = d) := by
  refine ⟨by simp [callApi, hok], ?_, ?_, ?_⟩
  · intro hb; simp [deriveError, hb]
  · intro b hb hd; simp [deriveError, hb, hd]
  · intro b d hb hd hde; simp [deriveError, hb, hd, hde]

/-- C4 witness: the two-tier theorem at a concrete failed response carrying
a structured detail. -/
theorem client_failure_two_tier_w :
    detailResp.ok = false ∧ callApi detailResp = Except.error "rate limited" :=
  ⟨rfl, ((client_failure_two_tier detailResp rfl).1).trans
          (congrArg Except.error (by decide))⟩

/-- Helper for C5: every history reachable by the App.jsx handlers contains
only user/assistant turns. -/
theorem reachable_roles (s : AppState) (hr : Reachable s) :
    ∀ t ∈ s.chatHistory, t.role ≠ Role.system := by
  induction hr with
  | init => intro t ht; simp [initState] at ht
  | editHtml s v _ ih => exact ih
  | editChat s v _ ih => exact ih
  | setTab s tb _ ih => exact ih
  | setJson s b _ ih => exact ih
  | evalStart s _ ih =>
    intro t ht
    by_cases hb : isBlank s.htmlInput
    · simp [evaluateStart, hb] at ht
      exact ih t ht
    · simp [evaluateStart, hb] at ht
      simp [ht]
  | evalFinish s o _ ih =>
    intro t ht
    cases o with
    | ok r =>
      simp [evaluateFinish] at ht
      rcases ht with ht | ht
      · exact ih t ht
      · simp [ht]
    | error m =>
      simp [evaluateFinish] at ht
      rcases ht with ht | ht
      · exact ih t ht
      · simp [ht]
  | chatStartStep s _ ih =>
    intro t ht
    by_cases hb : isBlank s.chatInput || s.loading
    · simp [chatStart, hb] at ht
      exact ih t ht
    · simp [chatStart, hb] at ht
      rcases ht with ht | ht
      · exact ih t ht
      · simp [ht]
  | chatFinishStep s o _ ih =>
    intro t ht
    cases o with
    | ok r =>
      by_cases hf : r.score_fidelity.isSome
      · simp [chatFinish, hf] at ht
        rcases ht with ht | ht
        · exact ih t ht
        · simp [ht]
      · simp [chatFinish, hf] at ht
        rcases ht with ht | ht
        · exact ih t ht
        · simp [ht]
    | error m =>
      simp [chatFinish] at ht
      rcases ht with ht | ht
      · exact ih t ht
      · simp [ht]
  | applyFix s v _ ih =>
    by_cases hv : v.isEmpty
    · simpa [handleApplyFix, hv] using ih
    · simpa [handleApplyFix, hv] using ih

/-- C5: the wire transcript never carries a `system`-notice turn — the
legacy chat UI filters the greeting out explicitly, and the current UI's
reachable histories contain only user/assistant turns — and every wire
content is a string: string content passes through unchanged and structured
assistant content is serialized by the canonical encoder. -/
theorem wire_excludes_system_notice (h : List Turn) (s : AppState)
    (hr : Reachable s) (txt : String) (a : AContent) :
    (∀ w ∈ toWire003 h, w.role ≠ Role.system) ∧
    (∀ w ∈ toWireApp s.chatHistory, w.role ≠ Role.system) ∧
    serializeContent (Content.str txt) = txt ∧
    serializeContent (Content.obj a) = jsonStringifyA a := by
  refine ⟨?_, ?_, rfl, rfl⟩
  · intro w hw
    simp [toWire003, List.mem_filter] at hw
    obtain ⟨m, ⟨_, hms⟩, hwm⟩ := hw
    intro hsys
    rw [← hwm] at hsys
    simp at hsys
    simp [hsys] at hms
  · intro w hw
    simp [toWireApp] at hw
    obtain ⟨m, hm, hwm⟩ := hw
    intro hsys
    rw [← hwm] at hsys
    simp at hsys
    exact reachable_roles s hr m hm hsys

/-- C5 witness: a system-notice greeting does not survive into the wire
transcript. -/
theorem wire_excludes_system_notice_w :
    (⟨Role.system, "greet"⟩ : WireMsg)
      ∉ toWire003 [⟨Role.system, Content.str "greet"⟩] := by
  intro hmem
  exact (wire_excludes_system_notice [⟨Role.system, Content.str "greet"⟩]
    initState Reachable.init "" (AContent.err "")).1 _ hmem rfl

/-- C6: a fresh evaluation of a non-blank editor document resets the
history to exactly one user turn embedding the document, dispatches exactly
that transcript, and clears the displayed analysis. -/
theorem fresh_evaluation_resets (s : AppState) (hdoc : isBlank s.htmlInput = false) :
    (evaluateStart s).1.chatHistory
      = [⟨Role.user, Content.str ("Evaluate this HTML:\n" ++ s.htmlInput)⟩] ∧
    (evaluateStart s).2
      = some [⟨Role.user, Content.str ("Evaluate this HTML:\n" ++ s.htmlInput)⟩] ∧
    (evaluateStart s).1.latestAnalysis = none := by
  simp [evaluateStart, hdoc, evalPrompt]

/-- C6 witness: the reset at a concrete non-blank document. -/
theorem fresh_evaluation_resets_w :
    isBlank (idleChatState.htmlInput) = false ∧
    (evaluateStart idleChatState).1.chatHistory
      = [⟨Role.user, Content.str ("Evaluate this HTML:\n" ++ "<p>a</p>")⟩] ∧
    (evaluateStart idleChatState).1.latestAnalysis = none :=
  ⟨by decide,
   (fresh_evaluation_resets idleChatState (by decide)).1,
   (fresh_evaluation_resets idleChatState (by decide)).2.2⟩

/-- C7 counterexample: on the spec's own example rationale the extracted
preview document is the raw regex capture `"\n<p>hi</p>\n"`, newlines
included — not the trimmed `"<p>hi</p>"` the claim states. -/
theorem fence_interior_newlines_cex :
    getPreviewCode histHiFence "EDITOR" = "\n<p>hi</p>\n" ∧
    getPreviewCode histHiFence "EDITOR" ≠ "<p>hi</p>" := by
  decide

/-- C7 (amended): a history whose assistant turn has no `fixed_html` and the
rationale ```` ```html\n<p>hi</p>\n``` ```` yields, for every editor
document, the preview `"\n<p>hi</p>\n"` — the capture between the language
tag and the closing fence, delimiting newlines included. -/
theorem fence_fallback_raw_capture (E : String) :
    getPreviewCode histHiFence E = "\n<p>hi</p>\n" := by
  rfl

/-- C8 counterexample: the current `handleEvaluate` forces the view to the
`logs` tab, not to `analysis`. -/
theorem evaluate_forces_logs_cex :
    (evaluateStart busyEvalState).1.activeTab = Tab.logs ∧
    Tab.logs ≠ Tab.analysis := by
  decide

/-- C8 (amended): submitting a fresh evaluation resets the Message Store to
the single fresh user turn embedding the editor document in both versions;
the current controller (App.jsx) forces the ViewMode to `logs`, while only
the legacy controller (part_004) forces it to `analysis`. -/
theorem evaluate_side_effects (s : AppState) (hdoc : isBlank s.htmlInput = false) :
    ((evaluateStart s).1.chatHistory
       = [⟨Role.user, Content.str (evalPrompt s.htmlInput)⟩] ∧
     (evaluateStart s).1.activeTab = Tab.logs) ∧
    ((evaluateStart004 s).1.chatHistory
       = [⟨Role.user, Content.str (evalPrompt s.htmlInput)⟩] ∧
     (evaluateStart004 s).1.activeTab = Tab.analysis) := by
  simp [evaluateStart, evaluateStart004, hdoc]

/-- C8 witness: the side effects at a concrete non-blank document. -/
theorem evaluate_side_effects_w :
    isBlank (idleChatState.htmlInput) = false ∧
    (evaluateStart idleChatState).1.activeTab = Tab.logs ∧
    (evaluateStart004 idleChatState).1.activeTab = Tab.analysis :=
  ⟨by decide,
   (evaluate_side_effects idleChatState (by decide)).1.2,
   (evaluate_side_effects idleChatState (by decide)).2.2⟩

/-- C9: on the optional-score surface, a present score of `0` is rendered
`"N/A"` exactly like an absent score, and an absent score is classified by
defaulting it to `0` (hence `"text-low"`), identically to a present `0` —
absence and zero are not distinguishable, contradicting the stated
invariant. -/
theorem optional_score_conflated :
    optScoreDisplay (some 0) = "N/A" ∧
    optScoreDisplay none = "N/A" ∧
    optScoreClass none = getScoreColor 0 ∧
    optScoreClass (some 0) = optScoreClass none ∧
    getScoreColor 0 = "text-low" := by
  decide

end AIHtml
